import Mathlib

/-!
Verification of the travel-assistant route-optimization engine.

Shallow embedding of `src/agents/route_optimizer_agent.py` (multi-city
route search, transport-mode selection, ranking), of
`src/agents/route_optimizer_clean.py` (TTL-cached traffic conditions and
traffic adjustment of transport options), and of the monitoring
operation.

Modelling conventions:
* Machine floats are modelled as exact rationals (`ℚ`); Python
  `round(x, 2)` is round-half-to-even at two decimal places on `ℚ`, and
  Python `int(x)` on the non-negative values arising here is `⌊x⌋`.
* `_calculate_distance` computes a real-valued haversine formula (with a
  constant 500 km fallback), so the distance function is abstracted as a
  parameter `dist : String → String → ℚ`; every theorem below is proved
  for an arbitrary distance function.
* Python dict iteration order over `transport_configs` (insertion order
  flight, train, bus, car_rental) is the list `transportModes`.
* `itertools.permutations` is modelled by `List.permutations`, which
  enumerates the same collection of orderings of the intermediate cities
  (in a different sequence; no property below depends on the enumeration
  sequence of the candidate set).
* The randomized inputs of the traffic simulation (the clock hour, the
  30% heavy-traffic roll, the weather draw, the `time.time()` clock) are
  injected as explicit parameters.
-/

namespace TravelAssistant

/-- Transport modes: the keys of `transport_configs`. -/
inductive TransportMode where
  | flight
  | train
  | bus
  | car_rental
deriving DecidableEq, Repr

/-- The per-mode catalog entry of `self.transport_configs`.  The
`traffic_sensitive` flag exists only in `route_optimizer_clean.py`; the
numeric fields agree between the two source files. -/
structure TransportConfig where
  avg_speed_kmh : ℚ
  cost_per_km : ℚ
  carbon_per_km : ℚ
  setup_time_hours : ℚ
  availability : String
  traffic_sensitive : Bool
deriving DecidableEq, Repr

/-- `self.transport_configs` from both optimizer sources. -/
def transport_configs : TransportMode → TransportConfig
  | .flight => ⟨800, 15/100, 255/1000, 3, "global", false⟩
  | .train => ⟨120, 8/100, 41/1000, 1, "regional", false⟩
  | .bus => ⟨80, 5/100, 89/1000, 1/2, "regional", true⟩
  | .car_rental => ⟨90, 12/100, 171/1000, 1/2, "global", true⟩

/-- Iteration order of `self.transport_configs.items()` (Python dicts
preserve insertion order). -/
def transportModes : List TransportMode :=
  [.flight, .train, .bus, .car_rental]

/-- The Python name string of a mode (dict key). -/
def modeName : TransportMode → String
  | .flight => "flight"
  | .train => "train"
  | .bus => "bus"
  | .car_rental => "car_rental"

/-- Python `round(x, 2)`: round half to even at two decimal places,
modelled on exact rationals. -/
def round2 (x : ℚ) : ℚ :=
  let n : ℤ := ⌊x * 100⌋
  let r : ℚ := x * 100 - (n : ℚ)
  let m : ℤ :=
    if r < 1/2 then n
    else if 1/2 < r then n + 1
    else if n % 2 = 0 then n else n + 1
  (m : ℚ) / 100

/-- The dict built by `_calculate_transport_option`, together with the
keys later added by `_apply_traffic_to_option` (absent keys are
`none`). -/
structure TransportOption where
  type : TransportMode
  origin : String
  destination : String
  distance_km : ℚ
  cost : ℚ
  duration_hours : ℚ
  carbon_footprint : ℚ
  date : String
  real_time_duration_hours : Option ℚ := none
  traffic_delay_minutes : Option ℤ := none
  traffic_conditions : Option String := none
  traffic_adjusted_cost : Option ℚ := none
  traffic_adjusted_carbon : Option ℚ := none
deriving DecidableEq, Repr

/-- `_calculate_transport_option` (identical in both sources); the
`config` argument is always `self.transport_configs[transport_type]`. -/
def calculateTransportOption (transport_type : TransportMode)
    (origin destination : String) (distance_km : ℚ) (date : String) :
    TransportOption :=
  let config := transport_configs transport_type
  { type := transport_type
    origin := origin
    destination := destination
    distance_km := distance_km
    cost := round2 (distance_km * config.cost_per_km)
    duration_hours :=
      round2 (distance_km / config.avg_speed_kmh + config.setup_time_hours)
    carbon_footprint := round2 (distance_km * config.carbon_per_km)
    date := date }

/-- `_is_transport_viable` (identical in both sources); the `origin` and
`destination` arguments are unused by the source body. -/
def isTransportViable (transport_type : TransportMode) (distance_km : ℚ) :
    Bool :=
  match transport_type with
  | .flight => distance_km > 100
  | .train => distance_km < 1000 && distance_km > 50
  | .bus => distance_km < 800
  | .car_rental => distance_km < 1200

/-- Python `min(x :: xs, key=key)`: the earliest element attaining the
minimum key. -/
def pymin {α : Type} (key : α → ℚ) (x : α) (xs : List α) : α :=
  xs.foldl (fun acc y => if key y < key acc then y else acc) x

/-- The selection key used by `_select_best_transport` for a given
`optimize_for` preference (`cost`, `time`, `carbon`, anything else is
the balanced weighted sum). -/
def optionKey (optimize_for : String) (o : TransportOption) : ℚ :=
  if optimize_for = "cost" then o.cost
  else if optimize_for = "time" then o.duration_hours
  else if optimize_for = "carbon" then o.carbon_footprint
  else o.cost + o.duration_hours * 10 + o.carbon_footprint * 100

/-- The option list built inside `_select_best_transport` (and
`optimize_transport_mix`): every catalog mode that passes
`_is_transport_viable`, in dict iteration order. -/
def viableOptions (origin destination : String) (distance_km : ℚ)
    (date : String) : List TransportOption :=
  (transportModes.filter (fun t => isTransportViable t distance_km)).map
    (fun t => calculateTransportOption t origin destination distance_km date)

/-- `_select_best_transport`: pick the viable option minimizing the
requested objective; with no viable option, fall back to the flight
option computed without any viability check.  The `preferences` dict is
represented by the resolved `optimize_for` string
(`preferences.get('optimize_for', 'cost')`). -/
def selectBestTransport (origin destination : String) (distance_km : ℚ)
    (optimize_for : String) : TransportOption :=
  match viableOptions origin destination distance_km "2025-08-01" with
  | [] => calculateTransportOption .flight origin destination distance_km
      "2025-08-01"
  | o :: os => pymin (optionKey optimize_for) o os

/-- The `TravelLeg` dataclass of `route_optimizer_agent.py`. -/
structure TravelLeg where
  origin : String
  destination : String
  transport_type : TransportMode
  departure_date : String
  arrival_date : String
  cost : ℚ
  duration_hours : ℚ
  carbon_footprint : ℚ
deriving DecidableEq, Repr

/-- The `OptimizedRoute` dataclass of `route_optimizer_agent.py`. -/
structure OptimizedRoute where
  legs : List TravelLeg
  total_cost : ℚ
  total_duration_hours : ℚ
  total_carbon_footprint : ℚ
  efficiency_score : ℚ
deriving DecidableEq, Repr

/-- `_calculate_efficiency_score`. -/
def calculateEfficiencyScore (cost duration_hours carbon : ℚ) : ℚ :=
  let cost_score := max 0 (1000 - cost) / 1000
  let time_score := max 0 (48 - duration_hours) / 48
  let carbon_score := max 0 (1000 - carbon) / 1000
  (cost_score * (4/10) + time_score * (4/10) + carbon_score * (2/10)) * 100

/-- The `TravelLeg` built from the best transport option inside both
route regimes (placeholder dates as in the source). -/
def legOfTransport (best : TransportOption) : TravelLeg :=
  { origin := best.origin
    destination := best.destination
    transport_type := best.type
    departure_date := "2025-08-01"
    arrival_date := "2025-08-01"
    cost := best.cost
    duration_hours := best.duration_hours
    carbon_footprint := best.carbon_footprint }

/-- The leg-construction loop `for i in range(len(route_cities) - 1)`
shared by `_optimize_small_route` and `_optimize_large_route`. -/
def routeLegs (dist : String → String → ℚ) (optimize_for : String) :
    List String → List TravelLeg
  | [] => []
  | [_] => []
  | origin :: destination :: rest =>
      legOfTransport
          (selectBestTransport origin destination (dist origin destination)
            optimize_for)
        :: routeLegs dist optimize_for (destination :: rest)

/-- Building one `OptimizedRoute` from an ordered city list: the legs
plus the three running totals (`total_cost += ...` accumulation) and the
efficiency score, as in both route regimes. -/
def buildRoute (dist : String → String → ℚ) (optimize_for : String)
    (route_cities : List String) : OptimizedRoute :=
  let legs := routeLegs dist optimize_for route_cities
  let total_cost := legs.foldl (fun acc leg => acc + leg.cost) 0
  let total_duration := legs.foldl (fun acc leg => acc + leg.duration_hours) 0
  let total_carbon :=
    legs.foldl (fun acc leg => acc + leg.carbon_footprint) 0
  { legs := legs
    total_cost := total_cost
    total_duration_hours := total_duration
    total_carbon_footprint := total_carbon
    efficiency_score :=
      calculateEfficiencyScore total_cost total_duration total_carbon }

/-- The city list of one enumerated candidate in
`_optimize_small_route`:
`[start] + list(perm) + [end] if end != start else [start] + list(perm)`. -/
def smallRouteCities (start_city : String) (perm : List String)
    (end_city : String) : List String :=
  if end_city ≠ start_city then start_city :: (perm ++ [end_city])
  else start_city :: perm

/-- `_optimize_small_route`: one candidate route per permutation of the
intermediate cities. -/
def optimizeSmallRoute (dist : String → String → ℚ) (start_city : String)
    (intermediate_cities : List String) (end_city : String)
    (optimize_for : String) : List OptimizedRoute :=
  intermediate_cities.permutations.map
    (fun perm =>
      buildRoute dist optimize_for (smallRouteCities start_city perm end_city))

/-- `pymin` returns a member of the list it minimizes over. -/
theorem pymin_mem {α : Type} (key : α → ℚ) (x : α) (xs : List α) :
    pymin key x xs ∈ x :: xs := by
  induction xs generalizing x with
  | nil => simp [pymin]
  | cons y ys ih =>
    have h := ih (if key y < key x then y else x)
    simp only [pymin, List.foldl_cons] at h ⊢
    rcases List.mem_cons.mp h with h1 | h1
    · rw [h1]
      split
      · exact List.mem_cons_of_mem x (List.mem_cons_self y ys)
      · exact List.mem_cons_self x (y :: ys)
    · exact List.mem_cons_of_mem x (List.mem_cons_of_mem y h1)

/-- `pymin` attains the minimum key over the list. -/
theorem pymin_le {α : Type} (key : α → ℚ) (x : α) (xs : List α) :
    ∀ a ∈ x :: xs, key (pymin key x xs) ≤ key a := by
  induction xs generalizing x with
  | nil => simp [pymin]
  | cons y ys ih =>
    intro a ha
    have hstep : key (if key y < key x then y else x) ≤ key x ∧
        key (if key y < key x then y else x) ≤ key y := by
      constructor
      · split
        · next hlt => exact le_of_lt hlt
        · exact le_refl _
      · split
        · exact le_refl _
        · next hge => exact le_of_not_lt hge
    have hih := ih (if key y < key x then y else x)
    simp only [pymin, List.foldl_cons] at hih ⊢
    rcases List.mem_cons.mp ha with rfl | ha1
    · exact le_trans (hih _ (List.mem_cons_self _ ys)) hstep.1
    · rcases List.mem_cons.mp ha1 with rfl | ha2
      · exact le_trans (hih _ (List.mem_cons_self _ ys)) hstep.2
      · exact hih a (List.mem_cons_of_mem _ ha2)

/-- The nearest-neighbor tour-construction loop of
`_optimize_large_route`: starting from the current city, repeatedly
visit the nearest unvisited city (Python `min` with the distance key,
earliest wins ties) until none remain. -/
def nearestNeighborOrder (dist : String → String → ℚ) :
    String → List String → List String
  | _, [] => []
  | current, c :: cs =>
    let nearest := pymin (fun city => dist current city) c cs
    nearest :: nearestNeighborOrder dist nearest ((c :: cs).erase nearest)
termination_by _ l => l.length
decreasing_by
  have h := pymin_mem (fun city => dist current city) c cs
  rw [List.length_erase_of_mem h]
  simp

/-- Auxiliary induction (on a length bound) for
`nearestNeighborOrder_perm`. -/
theorem nearestNeighborOrder_perm_aux (dist : String → String → ℚ) (n : ℕ) :
    ∀ (l : List String), l.length ≤ n → ∀ current : String,
      (nearestNeighborOrder dist current l).Perm l := by
  induction n with
  | zero =>
    intro l hl current
    rw [List.length_eq_zero.mp (Nat.le_zero.mp hl)]
    simp [nearestNeighborOrder]
  | succ n ih =>
    intro l hl current
    match l with
    | [] => simp [nearestNeighborOrder]
    | c :: cs =>
      rw [nearestNeighborOrder]
      have hmem := pymin_mem (fun city => dist current city) c cs
      have hlen :
          ((c :: cs).erase
              (pymin (fun city => dist current city) c cs)).length ≤ n := by
        rw [List.length_erase_of_mem hmem]
        simpa using Nat.le_of_succ_le_succ hl
      have hrec := ih _ hlen (pymin (fun city => dist current city) c cs)
      exact (hrec.cons _).trans (List.perm_cons_erase hmem).symm

/-- The nearest-neighbor order visits exactly the given cities. -/
theorem nearestNeighborOrder_perm (dist : String → String → ℚ)
    (l : List String) (current : String) :
    (nearestNeighborOrder dist current l).Perm l :=
  nearestNeighborOrder_perm_aux dist l.length l le_rfl current

/-- The city list built by `_optimize_large_route`: the greedy tour from
the start city, with the end city appended when it differs from the
start. -/
def largeRouteCities (dist : String → String → ℚ) (start_city : String)
    (intermediate_cities : List String) (end_city : String) : List String :=
  let route_cities :=
    start_city :: nearestNeighborOrder dist start_city intermediate_cities
  if end_city ≠ start_city then route_cities ++ [end_city] else route_cities

/-- `_optimize_large_route`: the single nearest-neighbor heuristic
candidate. -/
def optimizeLargeRoute (dist : String → String → ℚ) (start_city : String)
    (intermediate_cities : List String) (end_city : String)
    (optimize_for : String) : List OptimizedRoute :=
  [buildRoute dist optimize_for
    (largeRouteCities dist start_city intermediate_cities end_city)]

/-- The sort predicate of `_rank_routes` for a given criteria string
(Python `list.sort` is stable; `balanced` sorts with `reverse=True` on
the efficiency score). -/
def routeSortLE (criteria : String) (r1 r2 : OptimizedRoute) : Bool :=
  if criteria = "cost" then r1.total_cost ≤ r2.total_cost
  else if criteria = "time" then r1.total_duration_hours ≤ r2.total_duration_hours
  else if criteria = "carbon" then
    r1.total_carbon_footprint ≤ r2.total_carbon_footprint
  else r2.efficiency_score ≤ r1.efficiency_score

/-- `_rank_routes`: stable sort by the requested criteria, then attach
ranks `i + 1` (the serialized dict is represented by the
rank/route pair). -/
def rankRoutes (routes : List OptimizedRoute) (criteria : String) :
    List (ℕ × OptimizedRoute) :=
  List.enumFrom 1 (routes.mergeSort (routeSortLE criteria))

/-- The result of `optimize_multi_city_route` (success path): the fields
of the returned dict that carry route data. -/
structure MultiCityResult where
  status : String
  optimization_type : String
  criteria : String
  total_cities : ℕ
  routes : List (ℕ × OptimizedRoute)
deriving DecidableEq, Repr

/-- The candidate set produced inside `optimize_multi_city_route`:
intermediate cities are the requested cities distinct from start and
end; more than 8 of them selects the heuristic regime, otherwise the
brute-force regime. -/
def candidateRoutes (dist : String → String → ℚ) (cities : List String)
    (start_city end_city : String) (optimize_for : String) :
    List OptimizedRoute :=
  let intermediate_cities :=
    cities.filter (fun city => !(city == start_city || city == end_city))
  if intermediate_cities.length > 8 then
    optimizeLargeRoute dist start_city intermediate_cities end_city optimize_for
  else
    optimizeSmallRoute dist start_city intermediate_cities end_city optimize_for

/-- `optimize_multi_city_route` (success path): a missing end city
defaults to the start city; candidates are ranked and truncated to the
top 5. -/
def optimizeMultiCityRoute (dist : String → String → ℚ)
    (cities : List String) (start_city : String)
    (end_city? : Option String) (optimize_for : String) : MultiCityResult :=
  let end_city := end_city?.getD start_city
  { status := "success"
    optimization_type := "multi_city_route"
    criteria := optimize_for
    total_cities := cities.length
    routes :=
      (rankRoutes (candidateRoutes dist cities start_city end_city optimize_for)
        optimize_for).take 5 }

/-- The weather draw of `_simulate_traffic_conditions`
(`random.choice(['clear', 'rain', 'snow'])`). -/
inductive Weather where
  | clear
  | rain
  | snow
deriving DecidableEq, Repr

/-- `self.traffic_conditions['weather_impact']` (restricted to the three
drawable values). -/
def weatherImpact : Weather → ℚ
  | .clear => 1
  | .rain => 12/10
  | .snow => 15/10

/-- The weather label string. -/
def weatherLabel : Weather → String
  | .clear => "clear"
  | .rain => "rain"
  | .snow => "snow"

/-- The traffic dict returned by `get_real_time_traffic_data`: the
union of the fields of the synthesized snapshot
(`_simulate_traffic_conditions`) and of the zero-impact dict for
non-traffic-sensitive modes; keys absent from a given shape are `none`.
`created_at` is the `timestamp` field (the clock value at synthesis). -/
structure TrafficData where
  status : String
  conditions : String
  delay_minutes : ℤ
  weather : Option String
  congestion_level : Option ℚ
  distance_km : Option ℚ
  base_duration_hours : Option ℚ
  created_at : Option ℚ
  traffic_impact : Option String
  transport_type : Option TransportMode
deriving DecidableEq, Repr

/-- One entry of `self.traffic_cache`: the stored snapshot and the
`time.time()` value at which it was cached. -/
structure CacheEntry where
  data : TrafficData
  timestamp : ℚ
deriving DecidableEq, Repr

/-- `self.traffic_cache`, keyed by the `f"{origin}_{destination}_{type}"`
string. -/
def TrafficCache : Type := String → Option CacheEntry

/-- The cache key `f"{origin}_{destination}_{transport_type}"`. -/
def cacheKey (origin destination : String)
    (transport_type : TransportMode) : String :=
  origin ++ "_" ++ destination ++ "_" ++ modeName transport_type

/-- `self.cache_expiry_minutes`. -/
def cache_expiry_minutes : ℚ := 15

/-- `_get_cached_traffic_data`: return the stored snapshot when the
entry is younger than the TTL; expired entries are left in place
(lazily invalidated, never swept). -/
def getCachedTrafficData (cache : TrafficCache) (now : ℚ)
    (cache_key : String) : Option TrafficData :=
  match cache cache_key with
  | some cached_item =>
    if now - cached_item.timestamp < cache_expiry_minutes * 60 then
      some cached_item.data
    else none
  | none => none

/-- `_cache_traffic_data`: store the snapshot under the key with the
current clock value. -/
def cacheTrafficData (cache : TrafficCache) (now : ℚ) (cache_key : String)
    (data : TrafficData) : TrafficCache :=
  fun k => if k = cache_key then some ⟨data, now⟩ else cache k

/-- `_simulate_traffic_conditions`, with the randomized inputs injected:
`current_hour` is `datetime.now().hour`, `heavyRoll` is the 30%
`random.random() < 0.3` escalation draw (only consulted during peak
hours), `weather` is the `random.choice` draw, `now` the clock value
recorded in the snapshot's `timestamp` field. -/
def simulateTrafficConditions (dist : String → String → ℚ)
    (current_hour : ℤ) (heavyRoll : Bool) (weather : Weather) (now : ℚ)
    (origin destination : String) (transport_type : TransportMode) :
    TrafficData :=
  let distance_km := dist origin destination
  let peak := current_hour ∈ ([7, 8, 17, 18, 19] : List ℤ)
  let conditions :=
    if peak then (if heavyRoll then "heavy" else "moderate") else "normal"
  let delay_multiplier : ℚ :=
    if peak then (if heavyRoll then 18/10 else 13/10) else 1
  let delay_multiplier :=
    if distance_km > 200 then delay_multiplier * (11/10) else delay_multiplier
  let base_duration_hours :=
    distance_km / (transport_configs transport_type).avg_speed_kmh
  let delay_minutes : ℤ :=
    max 0 ⌊(delay_multiplier - 1) * base_duration_hours * 60⌋
  let delay_minutes : ℤ :=
    if weather ≠ .clear then ⌊(delay_minutes : ℚ) * weatherImpact weather⌋
    else delay_minutes
  let conditions :=
    if weather ≠ .clear then conditions ++ "_" ++ weatherLabel weather
    else conditions
  { status := "success"
    conditions := conditions
    delay_minutes := delay_minutes
    weather := some (weatherLabel weather)
    congestion_level := some delay_multiplier
    distance_km := some distance_km
    base_duration_hours := some base_duration_hours
    created_at := some now
    traffic_impact := none
    transport_type := none }

/-- The zero-impact dict returned for modes with
`traffic_sensitive = False`. -/
def notApplicableTrafficData (transport_type : TransportMode) : TrafficData :=
  { status := "success"
    conditions := "not_applicable"
    delay_minutes := 0
    weather := none
    congestion_level := none
    distance_km := none
    base_duration_hours := none
    created_at := none
    traffic_impact := some "none"
    transport_type := some transport_type }

/-- `get_real_time_traffic_data` (success path): non-traffic-sensitive
modes short-circuit to the zero-impact dict without touching the cache;
otherwise a valid cached snapshot is returned as is, and on a miss a
fresh snapshot is synthesized, cached and returned.  Returns the result
dict together with the updated cache state. -/
def getRealTimeTrafficData (dist : String → String → ℚ)
    (cache : TrafficCache) (now : ℚ) (current_hour : ℤ) (heavyRoll : Bool)
    (weather : Weather) (origin destination : String)
    (transport_type : TransportMode) : TrafficData × TrafficCache :=
  if (transport_configs transport_type).traffic_sensitive = false then
    (notApplicableTrafficData transport_type, cache)
  else
    let cache_key := cacheKey origin destination transport_type
    match getCachedTrafficData cache now cache_key with
    | some cached_data => (cached_data, cache)
    | none =>
      let traffic_data :=
        simulateTrafficConditions dist current_hour heavyRoll weather now
          origin destination transport_type
      (traffic_data, cacheTrafficData cache now cache_key traffic_data)

/-- `_apply_traffic_to_option`: enrich a transport option with the
traffic-adjusted duration, cost and carbon fields; the base fields are
copied unchanged. -/
def applyTrafficToOption (base_option : TransportOption)
    (traffic_data : TrafficData) : TransportOption :=
  if traffic_data.status = "success" then
    let delay_minutes := traffic_data.delay_minutes
    let delay_hours : ℚ := (delay_minutes : ℚ) / 60
    { base_option with
      real_time_duration_hours :=
        some (base_option.duration_hours + delay_hours)
      traffic_delay_minutes := some delay_minutes
      traffic_conditions := some traffic_data.conditions
      traffic_adjusted_cost :=
        some (if delay_minutes > 30 then
            base_option.cost + base_option.cost * (1/10)
          else base_option.cost)
      traffic_adjusted_carbon :=
        some (if base_option.type = .car_rental then
            base_option.carbon_footprint + delay_hours * (5/2)
          else base_option.carbon_footprint) }
  else base_option

/-- A timed leg as consumed by the monitoring operation, carrying the
fresh per-leg delay obtained from the condition provider. -/
structure MonitoredLeg where
  origin : String
  destination : String
  transport_type : TransportMode
  delay_minutes : ℤ
deriving DecidableEq, Repr

/-- The monitoring report: the aggregated route status and the legs for
which an alert was emitted. -/
structure MonitoringReport where
  overall_status : String
  alerts : List MonitoredLeg
deriving DecidableEq, Repr

/-- Modelled from the spec: the agent-side `monitor_route_conditions`
operation is absent from `src/` (only its HTTP caller in
`src/app_agents.py` is present).  Per spec §4.9, the overall route
status is classified from the maximum per-leg delay (>60 min →
`major_delays`, >30 → `minor_delays`, else `on_schedule`) and an alert
is emitted for every leg whose delay exceeds 30 minutes. -/
def monitorRouteConditions (route_legs : List MonitoredLeg) :
    MonitoringReport :=
  let max_delay := (route_legs.map (·.delay_minutes)).foldl max (0 : ℤ)
  { overall_status :=
      if max_delay > 60 then "major_delays"
      else if max_delay > 30 then "minor_delays"
      else "on_schedule"
    alerts := route_legs.filter (fun leg => leg.delay_minutes > 30) }

/-- "Never worse" under a ranking criteria: ascending on the cost, time
or carbon aggregate, descending on the efficiency score for the
balanced fallback. -/
def notWorse (criteria : String) (r1 r2 : OptimizedRoute) : Prop :=
  if criteria = "cost" then r1.total_cost ≤ r2.total_cost
  else if criteria = "time" then
    r1.total_duration_hours ≤ r2.total_duration_hours
  else if criteria = "carbon" then
    r1.total_carbon_footprint ≤ r2.total_carbon_footprint
  else r2.efficiency_score ≤ r1.efficiency_score

/-- The Boolean sort predicate decides `notWorse`. -/
theorem notWorse_iff (criteria : String) (r1 r2 : OptimizedRoute) :
    routeSortLE criteria r1 r2 = true ↔ notWorse criteria r1 r2 := by
  unfold routeSortLE notWorse
  split_ifs <;> simp

/-- `notWorse` is reflexive. -/
theorem notWorse_refl (criteria : String) (r : OptimizedRoute) :
    notWorse criteria r r := by
  unfold notWorse
  split_ifs <;> exact le_refl _

/-- The route sort predicate is transitive. -/
theorem routeSortLE_trans (criteria : String) (a b c : OptimizedRoute)
    (h1 : routeSortLE criteria a b = true)
    (h2 : routeSortLE criteria b c = true) :
    routeSortLE criteria a c = true := by
  unfold routeSortLE at h1 h2 ⊢
  split_ifs at h1 h2 ⊢ <;> simp_all <;> linarith

/-- The route sort predicate is total. -/
theorem routeSortLE_total (criteria : String) (a b : OptimizedRoute) :
    (routeSortLE criteria a b || routeSortLE criteria b a) = true := by
  unfold routeSortLE
  split_ifs <;> simp <;> exact le_total _ _

/-- Accumulating with `acc + f x` from `init` is `init` plus the sum of
the mapped list (the `total += ...` loop pattern of both route
regimes). -/
theorem foldl_add_eq_sum {α : Type} (f : α → ℚ) (l : List α) (init : ℚ) :
    l.foldl (fun acc x => acc + f x) init = init + (l.map f).sum := by
  induction l generalizing init with
  | nil => simp
  | cons x xs ih =>
    simp only [List.foldl_cons, List.map_cons, List.sum_cons]
    rw [ih]
    ring

/-- The totals of a built route are the sums of its legs' metrics. -/
theorem buildRoute_totals (dist : String → String → ℚ)
    (optimize_for : String) (route_cities : List String) :
    (buildRoute dist optimize_for route_cities).total_cost
        = ((buildRoute dist optimize_for route_cities).legs.map
            (·.cost)).sum
    ∧ (buildRoute dist optimize_for route_cities).total_duration_hours
        = ((buildRoute dist optimize_for route_cities).legs.map
            (·.duration_hours)).sum
    ∧ (buildRoute dist optimize_for route_cities).total_carbon_footprint
        = ((buildRoute dist optimize_for route_cities).legs.map
            (·.carbon_footprint)).sum := by
  unfold buildRoute
  refine ⟨?_, ?_, ?_⟩ <;>
    simp only [foldl_add_eq_sum, zero_add]

/-- Every route of either search regime is a `buildRoute` over some city
list. -/
theorem mem_regime_buildRoute (dist : String → String → ℚ)
    (start_city : String) (intermediate_cities : List String)
    (end_city : String) (optimize_for : String) (r : OptimizedRoute)
    (h : r ∈ optimizeSmallRoute dist start_city intermediate_cities end_city
          optimize_for
      ∨ r ∈ optimizeLargeRoute dist start_city intermediate_cities end_city
          optimize_for) :
    ∃ route_cities, r = buildRoute dist optimize_for route_cities := by
  rcases h with h | h
  · unfold optimizeSmallRoute at h
    rcases List.mem_map.mp h with ⟨perm, _, hperm⟩
    exact ⟨smallRouteCities start_city perm end_city, hperm.symm⟩
  · unfold optimizeLargeRoute at h
    rcases List.mem_singleton.mp h with rfl
    exact ⟨largeRouteCities dist start_city intermediate_cities end_city, rfl⟩

/-- The heuristic city list is the brute-force city list of the
nearest-neighbor permutation. -/
theorem largeRouteCities_eq (dist : String → String → ℚ)
    (start_city : String) (intermediate_cities : List String)
    (end_city : String) :
    largeRouteCities dist start_city intermediate_cities end_city
      = smallRouteCities start_city
          (nearestNeighborOrder dist start_city intermediate_cities)
          end_city := by
  unfold largeRouteCities smallRouteCities
  split_ifs <;> simp

/-- Every option in the viable-option list carries the requested
destination. -/
theorem mem_viableOptions_destination (origin destination : String)
    (distance_km : ℚ) (date : String) :
    ∀ x ∈ viableOptions origin destination distance_km date,
      x.destination = destination := by
  intro x hx
  unfold viableOptions at hx
  rcases List.mem_map.mp hx with ⟨t, _, rfl⟩
  rfl

/-- The selected transport of a leg carries the leg's destination. -/
theorem selectBestTransport_destination (origin destination : String)
    (distance_km : ℚ) (optimize_for : String) :
    (selectBestTransport origin destination distance_km
        optimize_for).destination = destination := by
  unfold selectBestTransport
  split
  · rfl
  · next o os heq =>
    have hmem : pymin (optionKey optimize_for) o os
        ∈ viableOptions origin destination distance_km "2025-08-01" := by
      rw [heq]
      exact pymin_mem _ o os
    exact mem_viableOptions_destination _ _ _ _ _ hmem

/-- The destinations of the legs built over a city list are exactly the
cities after the first. -/
theorem routeLegs_map_destination (dist : String → String → ℚ)
    (optimize_for : String) (route_cities : List String) :
    (routeLegs dist optimize_for route_cities).map (·.destination)
      = route_cities.tail := by
  match route_cities with
  | [] => simp [routeLegs]
  | [c] => simp [routeLegs]
  | origin :: destination :: rest =>
    rw [routeLegs]
    simp only [List.map_cons, List.tail_cons]
    rw [routeLegs_map_destination dist optimize_for (destination :: rest)]
    simp [legOfTransport, selectBestTransport_destination]

/-- Characterization of the running maximum of the monitoring loop. -/
theorem foldl_max_gt_iff (l : List ℤ) (a c : ℤ) :
    l.foldl max a > c ↔ a > c ∨ ∃ x ∈ l, x > c := by
  induction l generalizing a with
  | nil => simp
  | cons y ys ih =>
    rw [List.foldl_cons, ih]
    constructor
    · rintro (h | ⟨x, hx, hxc⟩)
      · rcases lt_max_iff.mp h with h | h
        · exact Or.inl h
        · exact Or.inr ⟨y, List.mem_cons_self _ _, h⟩
      · exact Or.inr ⟨x, List.mem_cons_of_mem _ hx, hxc⟩
    · rintro (h | ⟨x, hx, hxc⟩)
      · exact Or.inl (lt_max_iff.mpr (Or.inl h))
      · rcases List.mem_cons.mp hx with rfl | hx2
        · exact Or.inl (lt_max_iff.mpr (Or.inr hxc))
        · exact Or.inr ⟨x, hx2, hxc⟩

/-- C4: for every list of timed legs, the monitoring operation
classifies the overall route status from the maximum per-leg delay
(>60 min → `major_delays`, >30 → `minor_delays`, else `on_schedule`)
and emits an alert exactly for the legs whose delay exceeds 30
minutes. -/
theorem claim_C4 (route_legs : List MonitoredLeg) :
    ((monitorRouteConditions route_legs).overall_status = "major_delays"
      ↔ ∃ leg ∈ route_legs, leg.delay_minutes > 60)
    ∧ ((monitorRouteConditions route_legs).overall_status = "minor_delays"
      ↔ (∃ leg ∈ route_legs, leg.delay_minutes > 30)
        ∧ ∀ leg ∈ route_legs, leg.delay_minutes ≤ 60)
    ∧ ((monitorRouteConditions route_legs).overall_status = "on_schedule"
      ↔ ∀ leg ∈ route_legs, leg.delay_minutes ≤ 30)
    ∧ ∀ leg, leg ∈ (monitorRouteConditions route_legs).alerts
      ↔ leg ∈ route_legs ∧ leg.delay_minutes > 30 := by
  have key : ∀ c : ℤ, 0 ≤ c →
      (((route_legs.map (·.delay_minutes)).foldl max 0 > c)
        ↔ ∃ leg ∈ route_legs, leg.delay_minutes > c) := by
    intro c hc
    rw [foldl_max_gt_iff]
    constructor
    · rintro (h | ⟨x, hx, hxc⟩)
      · omega
      · rcases List.mem_map.mp hx with ⟨leg, hleg, rfl⟩
        exact ⟨leg, hleg, hxc⟩
    · rintro ⟨leg, hleg, hlegc⟩
      exact Or.inr ⟨_, List.mem_map_of_mem _ hleg, hlegc⟩
  have k60 := key 60 (by norm_num)
  have k30 := key 30 (by norm_num)
  unfold monitorRouteConditions
  simp only []
  refine ⟨?_, ?_, ?_, ?_⟩
  · split_ifs with h1 h2
    · simpa using k60.mp h1
    · rw [← k60] at *
      constructor
      · intro hfalse
        exact absurd hfalse (by decide)
      · intro hx
        exact absurd hx h1
    · rw [← k60] at *
      constructor
      · intro hfalse
        exact absurd hfalse (by decide)
      · intro hx
        exact absurd hx h1
  · split_ifs with h1 h2
    · constructor
      · intro hfalse
        exact absurd hfalse (by decide)
      · rintro ⟨_, hall⟩
        rcases k60.mp h1 with ⟨leg, hleg, hgt⟩
        have := hall leg hleg
        omega
    · constructor
      · intro _
        refine ⟨k30.mp h2, fun leg hleg => ?_⟩
        by_contra hgt
        exact h1 (k60.mpr ⟨leg, hleg, by omega⟩)
      · intro _
        rfl
    · constructor
      · intro hfalse
        exact absurd hfalse (by decide)
      · rintro ⟨hex, _⟩
        exact absurd (k30.mpr hex) h2
  · split_ifs with h1 h2
    · constructor
      · intro hfalse
        exact absurd hfalse (by decide)
      · intro hall
        rcases k60.mp h1 with ⟨leg, hleg, hgt⟩
        have := hall leg hleg
        omega
    · constructor
      · intro hfalse
        exact absurd hfalse (by decide)
      · intro hall
        rcases k30.mp h2 with ⟨leg, hleg, hgt⟩
        have := hall leg hleg
        omega
    · constructor
      · intro _
        intro leg hleg
        by_contra hgt
        exact h2 (k30.mpr ⟨leg, hleg, by omega⟩)
      · intro _
        rfl
  · intro leg
    simp [List.mem_filter]

/-- C8: for every origin, destination and clock state, a condition
lookup for a mode whose catalog entry has `traffic_sensitive = False`
(which is exactly flight and train) returns the zero-impact snapshot
with `delay_minutes = 0` and conditions `not_applicable`, leaves the
cache untouched, and its result does not depend on the cache
contents. -/
theorem claim_C8 (dist : String → String → ℚ) (cache : TrafficCache)
    (now : ℚ) (current_hour : ℤ) (heavyRoll : Bool) (weather : Weather)
    (origin destination : String) (transport_type : TransportMode)
    (h : (transport_configs transport_type).traffic_sensitive = false) :
    (getRealTimeTrafficData dist cache now current_hour heavyRoll weather
        origin destination transport_type).1.delay_minutes = 0
    ∧ (getRealTimeTrafficData dist cache now current_hour heavyRoll weather
        origin destination transport_type).1.conditions = "not_applicable"
    ∧ (getRealTimeTrafficData dist cache now current_hour heavyRoll weather
        origin destination transport_type).2 = cache
    ∧ ((transport_configs .flight).traffic_sensitive = false
      ∧ (transport_configs .train).traffic_sensitive = false)
    ∧ ∀ cache' : TrafficCache,
        (getRealTimeTrafficData dist cache' now current_hour heavyRoll weather
            origin destination transport_type).1
          = (getRealTimeTrafficData dist cache now current_hour heavyRoll
              weather origin destination transport_type).1 := by
  unfold getRealTimeTrafficData
  rw [if_pos h]
  exact ⟨rfl, rfl, rfl, ⟨rfl, rfl⟩, fun cache' => by rw [if_pos h]⟩

/-- Witness for C8 at a concrete non-traffic-sensitive lookup
(flight). -/
theorem claim_C8_witness :
    (getRealTimeTrafficData (fun _ _ => 500) (fun _ => none) 0 12 false
        .clear "new york" "boston" .flight).1.delay_minutes = 0
    ∧ (getRealTimeTrafficData (fun _ _ => 500) (fun _ => none) 0 12 false
        .clear "new york" "boston" .flight).1.conditions = "not_applicable"
    ∧ (getRealTimeTrafficData (fun _ _ => 500) (fun _ => none) 0 12 false
        .clear "new york" "boston" .flight).2 = (fun _ => none)
    ∧ ((transport_configs .flight).traffic_sensitive = false
      ∧ (transport_configs .train).traffic_sensitive = false)
    ∧ ∀ cache' : TrafficCache,
        (getRealTimeTrafficData (fun _ _ => 500) cache' 0 12 false .clear
            "new york" "boston" .flight).1
          = (getRealTimeTrafficData (fun _ _ => 500) (fun _ => none) 0 12
              false .clear "new york" "boston" .flight).1 :=
  claim_C8 (fun _ _ => 500) (fun _ => none) 0 12 false .clear "new york"
    "boston" .flight rfl

/-- C9: applying a success condition snapshot with delay `d` to a
transport option sets the real-time duration to the base duration plus
`d / 60` hours, surcharges the adjusted cost by 10% exactly when
`d > 30`, adds 2.5 kg of carbon per delay-hour to the adjusted carbon
only for `car_rental`, and leaves the base cost, duration and carbon
fields unchanged. -/
theorem claim_C9 (base_option : TransportOption) (traffic_data : TrafficData)
    (h : traffic_data.status = "success") :
    (applyTrafficToOption base_option traffic_data).real_time_duration_hours
      = some (base_option.duration_hours
          + (traffic_data.delay_minutes : ℚ) / 60)
    ∧ (traffic_data.delay_minutes > 30 →
        (applyTrafficToOption base_option traffic_data).traffic_adjusted_cost
          = some (base_option.cost + base_option.cost * (1/10)))
    ∧ (traffic_data.delay_minutes ≤ 30 →
        (applyTrafficToOption base_option traffic_data).traffic_adjusted_cost
          = some base_option.cost)
    ∧ (base_option.type = .car_rental →
        (applyTrafficToOption base_option
            traffic_data).traffic_adjusted_carbon
          = some (base_option.carbon_footprint
              + ((traffic_data.delay_minutes : ℚ) / 60) * (5/2)))
    ∧ (base_option.type ≠ .car_rental →
        (applyTrafficToOption base_option
            traffic_data).traffic_adjusted_carbon
          = some base_option.carbon_footprint)
    ∧ (applyTrafficToOption base_option traffic_data).cost = base_option.cost
    ∧ (applyTrafficToOption base_option traffic_data).duration_hours
      = base_option.duration_hours
    ∧ (applyTrafficToOption base_option traffic_data).carbon_footprint
      = base_option.carbon_footprint := by
  unfold applyTrafficToOption
  rw [if_pos h]
  refine ⟨rfl, ?_, ?_, ?_, ?_, rfl, rfl, rfl⟩
  · intro hd
    simp only [if_pos hd]
  · intro hd
    simp only [if_neg (not_lt.mpr hd)]
  · intro ht
    simp only [if_pos ht]
  · intro ht
    simp only [if_neg ht]

/-- Witness for C9 at a concrete car-rental option under a 45-minute
delay snapshot. -/
theorem claim_C9_witness :
    (applyTrafficToOption
        { type := .car_rental, origin := "new york", destination := "boston"
          distance_km := 300, cost := 36, duration_hours := 38/10
          carbon_footprint := 513/10, date := "2025-08-01" }
        { status := "success", conditions := "heavy", delay_minutes := 45
          weather := some "clear", congestion_level := some (18/10)
          distance_km := some 300, base_duration_hours := some (10/3)
          created_at := some 0, traffic_impact := none
          transport_type := none }).real_time_duration_hours
      = some ((38/10 : ℚ) + ((45 : ℤ) : ℚ) / 60)
    ∧ ((45 : ℤ) > 30 →
        (applyTrafficToOption
            { type := .car_rental, origin := "new york"
              destination := "boston", distance_km := 300, cost := 36
              duration_hours := 38/10, carbon_footprint := 513/10
              date := "2025-08-01" }
            { status := "success", conditions := "heavy"
              delay_minutes := 45, weather := some "clear"
              congestion_level := some (18/10), distance_km := some 300
              base_duration_hours := some (10/3), created_at := some 0
              traffic_impact := none
              transport_type := none }).traffic_adjusted_cost
          = some ((36 : ℚ) + 36 * (1/10)))
    ∧ ((45 : ℤ) ≤ 30 →
        (applyTrafficToOption
            { type := .car_rental, origin := "new york"
              destination := "boston", distance_km := 300, cost := 36
              duration_hours := 38/10, carbon_footprint := 513/10
              date := "2025-08-01" }
            { status := "success", conditions := "heavy"
              delay_minutes := 45, weather := some "clear"
              congestion_level := some (18/10), distance_km := some 300
              base_duration_hours := some (10/3), created_at := some 0
              traffic_impact := none
              transport_type := none }).traffic_adjusted_cost
          = some (36 : ℚ))
    ∧ ((TransportMode.car_rental = TransportMode.car_rental →
        (applyTrafficToOption
            { type := .car_rental, origin := "new york"
              destination := "boston", distance_km := 300, cost := 36
              duration_hours := 38/10, carbon_footprint := 513/10
              date := "2025-08-01" }
            { status := "success", conditions := "heavy"
              delay_minutes := 45, weather := some "clear"
              congestion_level := some (18/10), distance_km := some 300
              base_duration_hours := some (10/3), created_at := some 0
              traffic_impact := none
              transport_type := none }).traffic_adjusted_carbon
          = some ((513/10 : ℚ) + (((45 : ℤ) : ℚ) / 60) * (5/2))))
    ∧ (TransportMode.car_rental ≠ TransportMode.car_rental →
        (applyTrafficToOption
            { type := .car_rental, origin := "new york"
              destination := "boston", distance_km := 300, cost := 36
              duration_hours := 38/10, carbon_footprint := 513/10
              date := "2025-08-01" }
            { status := "success", conditions := "heavy"
              delay_minutes := 45, weather := some "clear"
              congestion_level := some (18/10), distance_km := some 300
              base_duration_hours := some (10/3), created_at := some 0
              traffic_impact := none
              transport_type := none }).traffic_adjusted_carbon
          = some (513/10 : ℚ))
    ∧ (applyTrafficToOption
        { type := .car_rental, origin := "new york", destination := "boston"
          distance_km := 300, cost := 36, duration_hours := 38/10
          carbon_footprint := 513/10, date := "2025-08-01" }
        { status := "success", conditions := "heavy", delay_minutes := 45
          weather := some "clear", congestion_level := some (18/10)
          distance_km := some 300, base_duration_hours := some (10/3)
          created_at := some 0, traffic_impact := none
          transport_type := none }).cost = 36
    ∧ (applyTrafficToOption
        { type := .car_rental, origin := "new york", destination := "boston"
          distance_km := 300, cost := 36, duration_hours := 38/10
          carbon_footprint := 513/10, date := "2025-08-01" }
        { status := "success", conditions := "heavy", delay_minutes := 45
          weather := some "clear", congestion_level := some (18/10)
          distance_km := some 300, base_duration_hours := some (10/3)
          created_at := some 0, traffic_impact := none
          transport_type := none }).duration_hours = 38/10
    ∧ (applyTrafficToOption
        { type := .car_rental, origin := "new york", destination := "boston"
          distance_km := 300, cost := 36, duration_hours := 38/10
          carbon_footprint := 513/10, date := "2025-08-01" }
        { status := "success", conditions := "heavy", delay_minutes := 45
          weather := some "clear", congestion_level := some (18/10)
          distance_km := some 300, base_duration_hours := some (10/3)
          created_at := some 0, traffic_impact := none
          transport_type := none }).carbon_footprint = 513/10 :=
  claim_C9
    { type := .car_rental, origin := "new york", destination := "boston"
      distance_km := 300, cost := 36, duration_hours := 38/10
      carbon_footprint := 513/10, date := "2025-08-01" }
    { status := "success", conditions := "heavy", delay_minutes := 45
      weather := some "clear", congestion_level := some (18/10)
      distance_km := some 300, base_duration_hours := some (10/3)
      created_at := some 0, traffic_impact := none
      transport_type := none }
    rfl

/-- C3: for a traffic-sensitive mode, a first lookup on a cold key
synthesizes a snapshot stamped with the current clock and stores it; a
second lookup within the 15-minute TTL returns the stored snapshot
unchanged (identical creation timestamp) without modifying the cache;
a lookup after the TTL has elapsed synthesizes a fresh snapshot with a
different creation timestamp and stores it under the key. -/
theorem claim_C3 (dist : String → String → ℚ) (cache : TrafficCache)
    (origin destination : String) (transport_type : TransportMode)
    (now1 now2 now3 : ℚ) (hour1 hour2 hour3 : ℤ)
    (roll1 roll2 roll3 : Bool) (w1 w2 w3 : Weather)
    (hsens : (transport_configs transport_type).traffic_sensitive = true)
    (hmiss : cache (cacheKey origin destination transport_type) = none)
    (hfresh : now2 - now1 < 15 * 60) (hstale : now3 - now1 ≥ 15 * 60) :
    getRealTimeTrafficData dist cache now1 hour1 roll1 w1 origin destination
        transport_type
      = (simulateTrafficConditions dist hour1 roll1 w1 now1 origin
          destination transport_type,
        cacheTrafficData cache now1
          (cacheKey origin destination transport_type)
          (simulateTrafficConditions dist hour1 roll1 w1 now1 origin
            destination transport_type))
    ∧ (simulateTrafficConditions dist hour1 roll1 w1 now1 origin destination
        transport_type).created_at = some now1
    ∧ getRealTimeTrafficData dist
        (cacheTrafficData cache now1
          (cacheKey origin destination transport_type)
          (simulateTrafficConditions dist hour1 roll1 w1 now1 origin
            destination transport_type))
        now2 hour2 roll2 w2 origin destination transport_type
      = (simulateTrafficConditions dist hour1 roll1 w1 now1 origin
          destination transport_type,
        cacheTrafficData cache now1
          (cacheKey origin destination transport_type)
          (simulateTrafficConditions dist hour1 roll1 w1 now1 origin
            destination transport_type))
    ∧ getRealTimeTrafficData dist
        (cacheTrafficData cache now1
          (cacheKey origin destination transport_type)
          (simulateTrafficConditions dist hour1 roll1 w1 now1 origin
            destination transport_type))
        now3 hour3 roll3 w3 origin destination transport_type
      = (simulateTrafficConditions dist hour3 roll3 w3 now3 origin
          destination transport_type,
        cacheTrafficData
          (cacheTrafficData cache now1
            (cacheKey origin destination transport_type)
            (simulateTrafficConditions dist hour1 roll1 w1 now1 origin
              destination transport_type))
          now3 (cacheKey origin destination transport_type)
          (simulateTrafficConditions dist hour3 roll3 w3 now3 origin
            destination transport_type))
    ∧ (simulateTrafficConditions dist hour3 roll3 w3 now3 origin destination
        transport_type).created_at = some now3
    ∧ (simulateTrafficConditions dist hour3 roll3 w3 now3 origin destination
          transport_type).created_at
        ≠ (simulateTrafficConditions dist hour1 roll1 w1 now1 origin
            destination transport_type).created_at
    ∧ cacheTrafficData
        (cacheTrafficData cache now1
          (cacheKey origin destination transport_type)
          (simulateTrafficConditions dist hour1 roll1 w1 now1 origin
            destination transport_type))
        now3 (cacheKey origin destination transport_type)
        (simulateTrafficConditions dist hour3 roll3 w3 now3 origin
          destination transport_type)
        (cacheKey origin destination transport_type)
      = some
          ⟨simulateTrafficConditions dist hour3 roll3 w3 now3 origin
            destination transport_type, now3⟩ := by
  have hns : ¬ ((transport_configs transport_type).traffic_sensitive
      = false) := by
    rw [hsens]
    simp
  have hne : now3 ≠ now1 := by
    intro h
    rw [h, sub_self] at hstale
    norm_num at hstale
  have hc1 : getCachedTrafficData cache now1
      (cacheKey origin destination transport_type) = none := by
    unfold getCachedTrafficData
    rw [hmiss]
  have hentry : cacheTrafficData cache now1
      (cacheKey origin destination transport_type)
      (simulateTrafficConditions dist hour1 roll1 w1 now1 origin destination
        transport_type)
      (cacheKey origin destination transport_type)
      = some ⟨simulateTrafficConditions dist hour1 roll1 w1 now1 origin
          destination transport_type, now1⟩ := by
    unfold cacheTrafficData
    rw [if_pos rfl]
  have hc2 : getCachedTrafficData
      (cacheTrafficData cache now1
        (cacheKey origin destination transport_type)
        (simulateTrafficConditions dist hour1 roll1 w1 now1 origin
          destination transport_type))
      now2 (cacheKey origin destination transport_type)
      = some (simulateTrafficConditions dist hour1 roll1 w1 now1 origin
          destination transport_type) := by
    unfold getCachedTrafficData
    rw [hentry]
    show (if now2 - now1 < cache_expiry_minutes * 60 then
        some (simulateTrafficConditions dist hour1 roll1 w1 now1 origin
          destination transport_type)
      else none)
      = some (simulateTrafficConditions dist hour1 roll1 w1 now1 origin
          destination transport_type)
    rw [if_pos (show now2 - now1 < cache_expiry_minutes * 60 from hfresh)]
  have hc3 : getCachedTrafficData
      (cacheTrafficData cache now1
        (cacheKey origin destination transport_type)
        (simulateTrafficConditions dist hour1 roll1 w1 now1 origin
          destination transport_type))
      now3 (cacheKey origin destination transport_type) = none := by
    unfold getCachedTrafficData
    rw [hentry]
    show (if now3 - now1 < cache_expiry_minutes * 60 then
        some (simulateTrafficConditions dist hour1 roll1 w1 now1 origin
          destination transport_type)
      else none)
      = none
    rw [if_neg (show ¬ (now3 - now1 < cache_expiry_minutes * 60) from
      not_lt.mpr hstale)]
  refine ⟨?_, rfl, ?_, ?_, rfl, ?_, ?_⟩
  · unfold getRealTimeTrafficData
    rw [if_neg hns]
    simp only [hc1]
  · unfold getRealTimeTrafficData
    rw [if_neg hns]
    simp only [hc2]
  · unfold getRealTimeTrafficData
    rw [if_neg hns]
    simp only [hc3]
  · show (some now3 : Option ℚ) ≠ some now1
    intro h
    exact hne (Option.some.inj h)
  · unfold cacheTrafficData
    simp

/-- Witness for C3: a cold cache, a hit 100 seconds after the first
lookup and a miss 1000 seconds after it, for the traffic-sensitive
`car_rental` mode. -/
theorem claim_C3_witness :
    getRealTimeTrafficData (fun _ _ => 500) (fun _ => none) 0 8 true .rain
        "chicago" "denver" .car_rental
      = (simulateTrafficConditions (fun _ _ => 500) 8 true .rain 0 "chicago"
          "denver" .car_rental,
        cacheTrafficData (fun _ => none) 0
          (cacheKey "chicago" "denver" .car_rental)
          (simulateTrafficConditions (fun _ _ => 500) 8 true .rain 0
            "chicago" "denver" .car_rental))
    ∧ (simulateTrafficConditions (fun _ _ => 500) 8 true .rain 0 "chicago"
        "denver" .car_rental).created_at = some 0
    ∧ getRealTimeTrafficData (fun _ _ => 500)
        (cacheTrafficData (fun _ => none) 0
          (cacheKey "chicago" "denver" .car_rental)
          (simulateTrafficConditions (fun _ _ => 500) 8 true .rain 0
            "chicago" "denver" .car_rental))
        100 9 false .clear "chicago" "denver" .car_rental
      = (simulateTrafficConditions (fun _ _ => 500) 8 true .rain 0 "chicago"
          "denver" .car_rental,
        cacheTrafficData (fun _ => none) 0
          (cacheKey "chicago" "denver" .car_rental)
          (simulateTrafficConditions (fun _ _ => 500) 8 true .rain 0
            "chicago" "denver" .car_rental))
    ∧ getRealTimeTrafficData (fun _ _ => 500)
        (cacheTrafficData (fun _ => none) 0
          (cacheKey "chicago" "denver" .car_rental)
          (simulateTrafficConditions (fun _ _ => 500) 8 true .rain 0
            "chicago" "denver" .car_rental))
        1000 10 false .snow "chicago" "denver" .car_rental
      = (simulateTrafficConditions (fun _ _ => 500) 10 false .snow 1000
          "chicago" "denver" .car_rental,
        cacheTrafficData
          (cacheTrafficData (fun _ => none) 0
            (cacheKey "chicago" "denver" .car_rental)
            (simulateTrafficConditions (fun _ _ => 500) 8 true .rain 0
              "chicago" "denver" .car_rental))
          1000 (cacheKey "chicago" "denver" .car_rental)
          (simulateTrafficConditions (fun _ _ => 500) 10 false .snow 1000
            "chicago" "denver" .car_rental))
    ∧ (simulateTrafficConditions (fun _ _ => 500) 10 false .snow 1000
        "chicago" "denver" .car_rental).created_at = some 1000
    ∧ (simulateTrafficConditions (fun _ _ => 500) 10 false .snow 1000
          "chicago" "denver" .car_rental).created_at
        ≠ (simulateTrafficConditions (fun _ _ => 500) 8 true .rain 0
            "chicago" "denver" .car_rental).created_at
    ∧ cacheTrafficData
        (cacheTrafficData (fun _ => none) 0
          (cacheKey "chicago" "denver" .car_rental)
          (simulateTrafficConditions (fun _ _ => 500) 8 true .rain 0
            "chicago" "denver" .car_rental))
        1000 (cacheKey "chicago" "denver" .car_rental)
        (simulateTrafficConditions (fun _ _ => 500) 10 false .snow 1000
          "chicago" "denver" .car_rental)
        (cacheKey "chicago" "denver" .car_rental)
      = some
          ⟨simulateTrafficConditions (fun _ _ => 500) 10 false .snow 1000
            "chicago" "denver" .car_rental, 1000⟩ :=
  claim_C3 (fun _ _ => 500) (fun _ => none) "chicago" "denver" .car_rental
    0 100 1000 8 9 10 true false false .rain .clear .snow rfl rfl
    (by norm_num) (by norm_num)

/-- C2: for every route produced by either search regime, the three
route totals equal the sums of the corresponding per-leg metrics
(exactly, in the exact-rational model of the source's float
arithmetic). -/
theorem claim_C2 (dist : String → String → ℚ) (start_city end_city : String)
    (intermediate_cities : List String) (optimize_for : String)
    (r : OptimizedRoute)
    (h : r ∈ optimizeSmallRoute dist start_city intermediate_cities end_city
          optimize_for
      ∨ r ∈ optimizeLargeRoute dist start_city intermediate_cities end_city
          optimize_for) :
    r.total_cost = (r.legs.map (·.cost)).sum
    ∧ r.total_duration_hours = (r.legs.map (·.duration_hours)).sum
    ∧ r.total_carbon_footprint = (r.legs.map (·.carbon_footprint)).sum := by
  rcases mem_regime_buildRoute dist start_city intermediate_cities end_city
    optimize_for r h with ⟨cs, rfl⟩
  exact buildRoute_totals dist optimize_for cs

/-- Witness for C2 at a concrete one-intermediate brute-force route. -/
theorem claim_C2_witness :
    (buildRoute (fun _ _ => 500) "cost"
        (smallRouteCities "boston" ["miami"] "boston")).total_cost
      = ((buildRoute (fun _ _ => 500) "cost"
          (smallRouteCities "boston" ["miami"] "boston")).legs.map
            (·.cost)).sum
    ∧ (buildRoute (fun _ _ => 500) "cost"
        (smallRouteCities "boston" ["miami"] "boston")).total_duration_hours
      = ((buildRoute (fun _ _ => 500) "cost"
          (smallRouteCities "boston" ["miami"] "boston")).legs.map
            (·.duration_hours)).sum
    ∧ (buildRoute (fun _ _ => 500) "cost"
        (smallRouteCities "boston" ["miami"]
          "boston")).total_carbon_footprint
      = ((buildRoute (fun _ _ => 500) "cost"
          (smallRouteCities "boston" ["miami"] "boston")).legs.map
            (·.carbon_footprint)).sum :=
  claim_C2 (fun _ _ => 500) "boston" "boston" ["miami"] "cost" _
    (Or.inl (List.mem_map_of_mem _
      (List.mem_permutations.mpr (List.Perm.refl _))))

/-- C6: mode selection is total: with no viable mode it falls back to
the flight option computed without any viability check, and otherwise
it returns a viable option minimizing the requested objective key. -/
theorem claim_C6 (origin destination : String) (distance_km : ℚ)
    (optimize_for : String) :
    (viableOptions origin destination distance_km "2025-08-01" = [] →
      selectBestTransport origin destination distance_km optimize_for
        = calculateTransportOption .flight origin destination distance_km
            "2025-08-01")
    ∧ (viableOptions origin destination distance_km "2025-08-01" ≠ [] →
      selectBestTransport origin destination distance_km optimize_for
        ∈ viableOptions origin destination distance_km "2025-08-01"
      ∧ ∀ o ∈ viableOptions origin destination distance_km "2025-08-01",
          optionKey optimize_for
              (selectBestTransport origin destination distance_km
                optimize_for)
            ≤ optionKey optimize_for o) := by
  constructor
  · intro hempty
    unfold selectBestTransport
    rw [hempty]
  · intro hne
    rcases List.exists_cons_of_ne_nil hne with ⟨o, os, heq⟩
    have hsel : selectBestTransport origin destination distance_km
        optimize_for = pymin (optionKey optimize_for) o os := by
      unfold selectBestTransport
      rw [heq]
    constructor
    · rw [hsel, heq]
      exact pymin_mem _ o os
    · intro x hx
      rw [hsel]
      exact pymin_le _ o os x (heq ▸ hx)

/-- Witness for C6 at a concrete 50 km leg with the cost objective. -/
theorem claim_C6_witness :
    (viableOptions "boston" "new york" 50 "2025-08-01" = [] →
      selectBestTransport "boston" "new york" 50 "cost"
        = calculateTransportOption .flight "boston" "new york" 50
            "2025-08-01")
    ∧ (viableOptions "boston" "new york" 50 "2025-08-01" ≠ [] →
      selectBestTransport "boston" "new york" 50 "cost"
        ∈ viableOptions "boston" "new york" 50 "2025-08-01"
      ∧ ∀ o ∈ viableOptions "boston" "new york" 50 "2025-08-01",
          optionKey "cost" (selectBestTransport "boston" "new york" 50 "cost")
            ≤ optionKey "cost" o) :=
  claim_C6 "boston" "new york" 50 "cost"

/-- `round(x, 2)` is the identity on values that are exact multiples of
a hundredth. -/
theorem round2_intMul (x : ℚ) (n : ℤ) (h : x * 100 = (n : ℚ)) :
    round2 x = x := by
  unfold round2
  simp only [h, Int.floor_intCast, sub_self]
  rw [if_pos (by norm_num : (0 : ℚ) < 1/2)]
  rw [div_eq_iff (by norm_num : (100 : ℚ) ≠ 0)]
  linarith

/-- The cost-objective selection key is the option's cost. -/
theorem optionKey_cost (o : TransportOption) : optionKey "cost" o = o.cost := by
  unfold optionKey
  rw [if_pos rfl]

/-- C5: a transport mode is viable exactly by its distance range
(flight iff d > 100, train iff 50 < d < 1000, bus iff d < 800, car iff
d < 1200); at 50 km exactly bus and car_rental are viable, and the
cost-objective selection picks the bus option, which is the cheaper of
the two. -/
theorem claim_C5 :
    (∀ d : ℚ, isTransportViable .flight d = true ↔ d > 100)
    ∧ (∀ d : ℚ, isTransportViable .train d = true ↔ 50 < d ∧ d < 1000)
    ∧ (∀ d : ℚ, isTransportViable .bus d = true ↔ d < 800)
    ∧ (∀ d : ℚ, isTransportViable .car_rental d = true ↔ d < 1200)
    ∧ (isTransportViable .car_rental 50 = true
      ∧ isTransportViable .bus 50 = true
      ∧ isTransportViable .flight 50 = false
      ∧ isTransportViable .train 50 = false)
    ∧ ∀ origin destination : String,
        selectBestTransport origin destination 50 "cost"
          = calculateTransportOption .bus origin destination 50 "2025-08-01"
        ∧ (calculateTransportOption .bus origin destination 50
            "2025-08-01").cost
          ≤ (calculateTransportOption .car_rental origin destination 50
              "2025-08-01").cost := by
  have hf50 : isTransportViable .flight 50 = false := by
    simp only [isTransportViable, decide_eq_false_iff_not]
    norm_num
  have ht50 : isTransportViable .train 50 = false := by
    simp only [isTransportViable, Bool.and_eq_false_iff,
      decide_eq_false_iff_not]
    right
    norm_num
  have hb50 : isTransportViable .bus 50 = true := by
    simp only [isTransportViable, decide_eq_true_eq]
    norm_num
  have hc50 : isTransportViable .car_rental 50 = true := by
    simp only [isTransportViable, decide_eq_true_eq]
    norm_num
  have hbcost : ∀ origin destination : String,
      (calculateTransportOption .bus origin destination 50
        "2025-08-01").cost = 5/2 := by
    intro origin destination
    show round2 (50 * (5/100)) = 5/2
    have h1 : (50 : ℚ) * (5/100) = 5/2 := by norm_num
    rw [h1]
    exact round2_intMul (5/2) 250 (by norm_num)
  have hccost : ∀ origin destination : String,
      (calculateTransportOption .car_rental origin destination 50
        "2025-08-01").cost = 6 := by
    intro origin destination
    show round2 (50 * (12/100)) = 6
    have h1 : (50 : ℚ) * (12/100) = 6 := by norm_num
    rw [h1]
    exact round2_intMul 6 600 (by norm_num)
  refine ⟨?_, ?_, ?_, ?_, ⟨hc50, hb50, hf50, ht50⟩, ?_⟩
  · intro d
    simp only [isTransportViable, decide_eq_true_eq]
  · intro d
    simp only [isTransportViable, Bool.and_eq_true, decide_eq_true_eq]
    constructor
    · rintro ⟨h1, h2⟩
      exact ⟨h2, h1⟩
    · rintro ⟨h1, h2⟩
      exact ⟨h2, h1⟩
  · intro d
    simp only [isTransportViable, decide_eq_true_eq]
  · intro d
    simp only [isTransportViable, decide_eq_true_eq]
  · intro origin destination
    have hviable : viableOptions origin destination 50 "2025-08-01"
        = [calculateTransportOption .bus origin destination 50 "2025-08-01",
           calculateTransportOption .car_rental origin destination 50
             "2025-08-01"] := by
      unfold viableOptions transportModes
      rw [List.filter_cons, List.filter_cons, List.filter_cons,
        List.filter_cons, List.filter_nil]
      rw [hf50, ht50, hb50, hc50]
      simp
    have hsel : selectBestTransport origin destination 50 "cost"
        = pymin (optionKey "cost")
            (calculateTransportOption .bus origin destination 50 "2025-08-01")
            [calculateTransportOption .car_rental origin destination 50
              "2025-08-01"] := by
      unfold selectBestTransport
      rw [hviable]
    have hnotlt : ¬ (optionKey "cost"
          (calculateTransportOption .car_rental origin destination 50
            "2025-08-01")
        < optionKey "cost"
          (calculateTransportOption .bus origin destination 50
            "2025-08-01")) := by
      rw [optionKey_cost, optionKey_cost, hbcost, hccost]
      norm_num
    constructor
    · rw [hsel]
      unfold pymin
      rw [List.foldl_cons, List.foldl_nil, if_neg hnotlt]
    · rw [hbcost, hccost]
      norm_num

/-- C1: with at most 8 intermediate cities (the exact regime) and any
objective, the rank-1 route of the brute-force candidate set is never
worse, on the requested objective's aggregate, than the single
nearest-neighbor heuristic candidate computed on the same input: the
heuristic tour is one of the enumerated permutations. -/
theorem claim_C1 (dist : String → String → ℚ) (start_city end_city : String)
    (intermediate_cities : List String) (optimize_for : String)
    (h : intermediate_cities.length ≤ 8) :
    ∃ best : ℕ × OptimizedRoute,
      (rankRoutes (optimizeSmallRoute dist start_city intermediate_cities
          end_city optimize_for) optimize_for).head? = some best
      ∧ ∀ heur ∈ optimizeLargeRoute dist start_city intermediate_cities
          end_city optimize_for,
          notWorse optimize_for best.2 heur := by
  have hnnperm : nearestNeighborOrder dist start_city intermediate_cities
      ∈ intermediate_cities.permutations :=
    List.mem_permutations.mpr
      (nearestNeighborOrder_perm dist intermediate_cities start_city)
  have hheur : buildRoute dist optimize_for
      (largeRouteCities dist start_city intermediate_cities end_city)
      ∈ optimizeSmallRoute dist start_city intermediate_cities end_city
          optimize_for := by
    rw [largeRouteCities_eq]
    exact List.mem_map_of_mem _ hnnperm
  have hperm := List.mergeSort_perm
    (optimizeSmallRoute dist start_city intermediate_cities end_city
      optimize_for)
    (routeSortLE optimize_for)
  have hmem_sorted : buildRoute dist optimize_for
      (largeRouteCities dist start_city intermediate_cities end_city)
      ∈ (optimizeSmallRoute dist start_city intermediate_cities end_city
          optimize_for).mergeSort (routeSortLE optimize_for) :=
    hperm.mem_iff.mpr hheur
  have hsorted := List.sorted_mergeSort
    (fun a b c => routeSortLE_trans optimize_for a b c)
    (fun a b => routeSortLE_total optimize_for a b)
    (optimizeSmallRoute dist start_city intermediate_cities end_city
      optimize_for)
  cases hms : (optimizeSmallRoute dist start_city intermediate_cities
      end_city optimize_for).mergeSort (routeSortLE optimize_for) with
  | nil =>
    rw [hms] at hmem_sorted
    cases hmem_sorted
  | cons b rest =>
    refine ⟨(1, b), ?_, ?_⟩
    · unfold rankRoutes
      rw [hms]
      rfl
    · intro heur hheurmem
      have hsingle : heur = buildRoute dist optimize_for
          (largeRouteCities dist start_city intermediate_cities end_city) :=
        List.mem_singleton.mp hheurmem
      subst hsingle
      rw [hms] at hmem_sorted hsorted
      rcases List.mem_cons.mp hmem_sorted with heq | hmem
      · rw [heq]
        exact notWorse_refl optimize_for b
      · exact (notWorse_iff _ _ _).mp (List.rel_of_pairwise_cons hsorted hmem)

/-- Witness for C1 at a concrete two-intermediate request with the cost
objective. -/
theorem claim_C1_witness :
    ∃ best : ℕ × OptimizedRoute,
      (rankRoutes (optimizeSmallRoute (fun _ _ => 500) "boston"
          ["miami", "chicago"] "boston" "cost") "cost").head? = some best
      ∧ ∀ heur ∈ optimizeLargeRoute (fun _ _ => 500) "boston"
          ["miami", "chicago"] "boston" "cost",
          notWorse "cost" best.2 heur :=
  claim_C1 (fun _ _ => 500) "boston" "boston" ["miami", "chicago"] "cost"
    (by decide)

/-- C7: ranking sorts ascending on the requested aggregate
(cost/time/carbon) and descending on efficiency score for the balanced
fallback; the ranked list is a permutation of the candidate set; the
sort is stable (any already-ordered sublist of the input keeps its
relative order); ranks are 1, 2, 3, ...; and the multi-city result is
truncated to the top 5 ranked candidates. -/
theorem claim_C7 (routes : List OptimizedRoute) (criteria : String) :
    List.Pairwise (fun a b => notWorse criteria a.2 b.2)
      (rankRoutes routes criteria)
    ∧ ((rankRoutes routes criteria).map Prod.snd).Perm routes
    ∧ (rankRoutes routes criteria).map Prod.fst
      = List.range' 1 routes.length
    ∧ (∀ sub : List OptimizedRoute, sub.Sublist routes →
        List.Pairwise (fun a b => routeSortLE criteria a b = true) sub →
        sub.Sublist ((rankRoutes routes criteria).map Prod.snd))
    ∧ ∀ (dist : String → String → ℚ) (cities : List String)
        (start_city : String) (end_city? : Option String),
        (optimizeMultiCityRoute dist cities start_city end_city?
            criteria).routes
          = (rankRoutes
              (candidateRoutes dist cities start_city
                (end_city?.getD start_city) criteria) criteria).take 5
        ∧ (optimizeMultiCityRoute dist cities start_city end_city?
            criteria).routes.length ≤ 5 := by
  have hsnd : (rankRoutes routes criteria).map Prod.snd
      = routes.mergeSort (routeSortLE criteria) := by
    unfold rankRoutes
    exact List.enumFrom_map_snd 1 _
  have hsorted := List.sorted_mergeSort
    (fun a b c => routeSortLE_trans criteria a b c)
    (fun a b => routeSortLE_total criteria a b) routes
  have hperm := List.mergeSort_perm routes (routeSortLE criteria)
  refine ⟨?_, ?_, ?_, ?_, ?_⟩
  · apply List.pairwise_map.mp
    rw [hsnd]
    exact hsorted.imp (fun hab => (notWorse_iff _ _ _).mp hab)
  · rw [hsnd]
    exact hperm
  · unfold rankRoutes
    rw [List.enumFrom_map_fst 1 _, hperm.length_eq]
  · intro sub hsub hsorted_sub
    rw [hsnd]
    exact List.sublist_mergeSort
      (fun a b c => routeSortLE_trans criteria a b c)
      (fun a b => routeSortLE_total criteria a b) hsorted_sub hsub
  · intro dist cities start_city hend
    exact ⟨rfl, List.length_take_le 5 _⟩

/-- Witness for C7 at a concrete two-candidate list with the cost
criteria. -/
theorem claim_C7_witness :
    List.Pairwise (fun a b => notWorse "cost" a.2 b.2)
      (rankRoutes [⟨[], 20, 4, 9, 50⟩, ⟨[], 10, 2, 3, 60⟩] "cost")
    ∧ ((rankRoutes [⟨[], 20, 4, 9, 50⟩, ⟨[], 10, 2, 3, 60⟩] "cost").map
        Prod.snd).Perm [⟨[], 20, 4, 9, 50⟩, ⟨[], 10, 2, 3, 60⟩]
    ∧ (rankRoutes [⟨[], 20, 4, 9, 50⟩, ⟨[], 10, 2, 3, 60⟩] "cost").map
        Prod.fst
      = List.range' 1
          ([⟨[], 20, 4, 9, 50⟩,
            (⟨[], 10, 2, 3, 60⟩ : OptimizedRoute)].length)
    ∧ (∀ sub : List OptimizedRoute,
        sub.Sublist [⟨[], 20, 4, 9, 50⟩, ⟨[], 10, 2, 3, 60⟩] →
        List.Pairwise (fun a b => routeSortLE "cost" a b = true) sub →
        sub.Sublist
          ((rankRoutes [⟨[], 20, 4, 9, 50⟩, ⟨[], 10, 2, 3, 60⟩]
            "cost").map Prod.snd))
    ∧ ∀ (dist : String → String → ℚ) (cities : List String)
        (start_city : String) (end_city? : Option String),
        (optimizeMultiCityRoute dist cities start_city end_city?
            "cost").routes
          = (rankRoutes
              (candidateRoutes dist cities start_city
                (end_city?.getD start_city) "cost") "cost").take 5
        ∧ (optimizeMultiCityRoute dist cities start_city end_city?
            "cost").routes.length ≤ 5 :=
  claim_C7 [⟨[], 20, 4, 9, 50⟩, ⟨[], 10, 2, 3, 60⟩] "cost"

/-- When the end city equals the start city, every candidate of either
regime is built over `start :: l` for some ordering `l` of the
intermediate cities. -/
theorem candidateRoutes_end_eq_start (dist : String → String → ℚ)
    (cities : List String) (start_city : String) (optimize_for : String)
    (r : OptimizedRoute)
    (h : r ∈ candidateRoutes dist cities start_city start_city
      optimize_for) :
    ∃ l : List String,
      l.Perm (cities.filter
        (fun city => !(city == start_city || city == start_city)))
      ∧ r = buildRoute dist optimize_for (start_city :: l) := by
  unfold candidateRoutes at h
  by_cases hlen : (cities.filter
      (fun city => !(city == start_city || city == start_city))).length > 8
  · rw [if_pos hlen] at h
    unfold optimizeLargeRoute at h
    rcases List.mem_singleton.mp h with rfl
    refine ⟨nearestNeighborOrder dist start_city _,
      nearestNeighborOrder_perm dist _ start_city, ?_⟩
    unfold largeRouteCities
    rw [if_neg (fun hc => hc rfl)]
  · rw [if_neg hlen] at h
    unfold optimizeSmallRoute at h
    rcases List.mem_map.mp h with ⟨perm, hperm, rfl⟩
    refine ⟨perm, List.mem_permutations.mp hperm, ?_⟩
    unfold smallRouteCities
    rw [if_neg (fun hc => hc rfl)]

/-- C10: whenever the requested end city equals the start city —
including when it is omitted and defaults to the start — every leg of
every returned route avoids the start city as a destination, and a
nonempty route ends at one of the intermediate cities: the round trip
is never closed. -/
theorem claim_C10 (dist : String → String → ℚ) (cities : List String)
    (start_city : String) (end_city? : Option String)
    (optimize_for : String)
    (h : end_city? = none ∨ end_city? = some start_city) :
    ∀ entry ∈ (optimizeMultiCityRoute dist cities start_city end_city?
        optimize_for).routes,
      (∀ leg ∈ entry.2.legs, leg.destination ≠ start_city)
      ∧ ∀ lastLeg, entry.2.legs.getLast? = some lastLeg →
          lastLeg.destination ∈ cities
          ∧ lastLeg.destination ≠ start_city := by
  intro entry hentry
  have hend : end_city?.getD start_city = start_city := by
    rcases h with rfl | rfl <;> rfl
  have hroutes : (optimizeMultiCityRoute dist cities start_city end_city?
      optimize_for).routes
      = (rankRoutes (candidateRoutes dist cities start_city start_city
          optimize_for) optimize_for).take 5 := by
    unfold optimizeMultiCityRoute
    rw [hend]
  rw [hroutes] at hentry
  have hrank := List.mem_of_mem_take hentry
  have hsnd : entry.2 ∈ (rankRoutes (candidateRoutes dist cities start_city
      start_city optimize_for) optimize_for).map Prod.snd :=
    List.mem_map_of_mem Prod.snd hrank
  unfold rankRoutes at hsnd
  rw [List.enumFrom_map_snd] at hsnd
  have hcand : entry.2 ∈ candidateRoutes dist cities start_city start_city
      optimize_for :=
    (List.mergeSort_perm _ _).subset hsnd
  rcases candidateRoutes_end_eq_start dist cities start_city optimize_for
    entry.2 hcand with ⟨l, hl, hr⟩
  have hdest : ∀ leg ∈ entry.2.legs,
      leg.destination ∈ cities ∧ leg.destination ≠ start_city := by
    intro leg hleg
    have hleg2 : leg ∈ routeLegs dist optimize_for (start_city :: l) := by
      rw [hr] at hleg
      exact hleg
    have hmap : leg.destination
        ∈ (routeLegs dist optimize_for (start_city :: l)).map
          (·.destination) := List.mem_map_of_mem _ hleg2
    rw [routeLegs_map_destination] at hmap
    have hfilter : leg.destination ∈ cities.filter
        (fun city => !(city == start_city || city == start_city)) :=
      hl.subset hmap
    rcases List.mem_filter.mp hfilter with ⟨hcities, hpred⟩
    refine ⟨hcities, fun hc => ?_⟩
    rw [hc] at hpred
    simp at hpred
  exact ⟨fun leg hleg => (hdest leg hleg).2,
    fun lastLeg hlast => hdest lastLeg (List.mem_of_mem_getLast? hlast)⟩

/-- Witness for C10: a three-city request with the end city omitted; no
returned route has a leg back to the start city. -/
theorem claim_C10_witness :
    (optimizeMultiCityRoute (fun _ _ => 500) ["boston", "miami", "chicago"]
        "boston" none "cost").routes.Forall
      (fun entry => entry.2.legs.Forall
        (fun leg => leg.destination ≠ "boston")) := by
  rw [List.forall_iff_forall_mem]
  intro entry hentry
  rw [List.forall_iff_forall_mem]
  intro leg hleg
  exact (claim_C10 (fun _ _ => 500) ["boston", "miami", "chicago"] "boston"
    none "cost" (Or.inl rfl) entry hentry).1 leg hleg
